import Mathlib

/-!
Shallow embedding of the TrueMoneyApp import-normalization pipeline and
financial-analytics engine (TypeScript sources: `src/services/bankService.ts`
split into the bank service, the intelligence service and the file-import
service, plus the store's `calculateDailyBudget` and the shared type
declarations).

Modelling conventions, applied uniformly:
- JavaScript numbers are modelled as exact rationals (`ℚ`).  Every quantity
  the claims touch is far from any binary-rounding boundary, and division by
  zero — the one place where IEEE semantics are observable — is modelled
  explicitly with the `JsNum` type (finite / Infinity / -Infinity / NaN).
- JavaScript `Date` values are modelled at day granularity (`SDate`): the
  analytics only ever compare dates and take month boundaries.  The ambient
  clock is passed explicitly: `now : SDate` for date comparisons and
  `nowMs : Int` for the millisecond reading `Date.now()` that the source
  interpolates into insight and transaction ids.
- `FileImportService.parseDate` delegates to the host's `new Date(...)`
  parser, whose grammar is host-defined; it is therefore passed as an
  explicit function parameter `pd : String → Option SDate` wherever needed.
- JavaScript's `Array.prototype.sort` is stable (ECMA-262); a stable sort by
  a fixed key determines the output uniquely, so it is modelled by a stable
  insertion sort.
- String primitives (`toLowerCase`, `trim`, `split`, `includes`, `join`) are
  re-implemented over `List Char` so that all definitions reduce inside the
  kernel.
-/

-- Batteries marks the point-wise rational operations irreducible; the
-- witnesses below evaluate the embedded functions inside the kernel, so the
-- operations are restored to their definitional behaviour for this file.
attribute [local semireducible] Rat.add Rat.mul Rat.inv Rat.sub Rat.ofScientific

/-! ## String primitives -/

/-- Character-list membership of a prefix: `isPrefList p l` holds when `p`
is an initial segment of `l` (used to model `String.prototype.includes`). -/
def isPrefList : List Char → List Char → Bool
  | [], _ => true
  | _ :: _, [] => false
  | a :: as, b :: bs => a == b && isPrefList as bs

/-- Substring search over character lists (JS `includes` semantics). -/
def subList (pat : List Char) : List Char → Bool
  | [] => isPrefList pat []
  | c :: rest => isPrefList pat (c :: rest) || subList pat rest

/-- JS `haystack.includes(needle)`. -/
def strIncludes (s pat : String) : Bool := subList pat.data s.data

/-- JS `toLowerCase()` restricted to ASCII (all inputs here are ASCII). -/
def lowerStr (s : String) : String := String.mk (s.data.map Char.toLower)

/-- Whitespace predicate for JS `trim` / `\s` (ASCII whitespace). -/
def isWs (c : Char) : Bool := c.isWhitespace

/-- JS `trim()` over a character list: drop whitespace at both ends. -/
def trimList (l : List Char) : List Char :=
  ((l.dropWhile isWs).reverse.dropWhile isWs).reverse

/-- JS `trim()` on strings. -/
def trimStr (s : String) : String := String.mk (trimList s.data)

/-- JS `split(sep)` for a single-character separator. -/
def splitOnChar (sep : Char) : List Char → List (List Char)
  | [] => [[]]
  | c :: rest =>
    if c = sep then [] :: splitOnChar sep rest
    else
      match splitOnChar sep rest with
      | [] => [[c]]
      | h :: t => (c :: h) :: t

/-- JS `Array.prototype.join(sep)`. -/
def joinWith (sep : String) : List String → String
  | [] => ""
  | [s] => s
  | s :: rest => s ++ sep ++ joinWith sep rest

/-! ## Shared data model (`src/types`, file `part_003` lines 1–88) -/

/-- Day-granularity model of a JS `Date` (year, month 1–12, day 1–31). -/
structure SDate where
  year : Int
  month : Nat
  day : Nat
deriving DecidableEq, Repr

/-- Date comparison `a <= b` (JS `Date` comparison at day granularity). -/
def sdLe (a b : SDate) : Bool :=
  if a.year ≠ b.year then decide (a.year < b.year)
  else if a.month ≠ b.month then decide (a.month < b.month)
  else decide (a.day ≤ b.day)

/-- Date comparison `a < b`. -/
def sdLt (a b : SDate) : Bool := !(sdLe b a)

/-- Gregorian leap-year test (what `new Date(y, m + 1, 0).getDate()` uses). -/
def isLeap (y : Int) : Bool :=
  (y.emod 4 = 0 && y.emod 100 ≠ 0) || y.emod 400 = 0

/-- Number of days in a month (month numbered 1–12). -/
def daysInMonth (y : Int) (m : Nat) : Nat :=
  match m with
  | 1 => 31
  | 2 => if isLeap y then 29 else 28
  | 3 => 31
  | 4 => 30
  | 5 => 31
  | 6 => 30
  | 7 => 31
  | 8 => 31
  | 9 => 30
  | 10 => 31
  | 11 => 30
  | 12 => 31
  | _ => 30

/-- date-fns `startOfMonth`. -/
def startOfMonth (d : SDate) : SDate := ⟨d.year, d.month, 1⟩

/-- date-fns `subMonths`: step back `n` months, clamping the day to the
length of the target month. -/
def subMonths (d : SDate) (n : Nat) : SDate :=
  let total : Int := d.year * 12 + (d.month : Int) - 1 - (n : Int)
  let y : Int := total.ediv 12
  let m : Nat := (total.emod 12).toNat + 1
  ⟨y, m, min d.day (daysInMonth y m)⟩

/-- date-fns `format(date, "yyyy-MM")`, modelled as the (year, month) pair. -/
def formatYM (d : SDate) : Int × Nat := (d.year, d.month)

/-- Transaction direction (`type: 'income' | 'expense'`). -/
inductive TxType
  | income
  | expense
deriving DecidableEq, Repr

/-- The fixed 11-value category enum (`TransactionCategory`). -/
inductive TransactionCategory
  | food
  | transportation
  | entertainment
  | utilities
  | rent
  | healthcare
  | shopping
  | education
  | salary
  | investment
  | other
deriving DecidableEq, Repr

/-- The TypeScript string value of a category (used in template ids). -/
def catString : TransactionCategory → String
  | .food => "food"
  | .transportation => "transportation"
  | .entertainment => "entertainment"
  | .utilities => "utilities"
  | .rent => "rent"
  | .healthcare => "healthcare"
  | .shopping => "shopping"
  | .education => "education"
  | .salary => "salary"
  | .investment => "investment"
  | .other => "other"

/-- Canonical transaction record (`interface Transaction`). -/
structure Transaction where
  id : String
  accountId : String
  date : SDate
  description : String
  amount : ℚ
  type : TxType
  category : TransactionCategory
  isRecurring : Bool
  merchantName : Option String
  location : Option String := none
  notes : Option String := none
deriving DecidableEq, Repr

/-! ## Transaction categorizer
(`IntelligenceService.categorizeTransaction`, bankService.ts lines 749–846) -/

/-- The text the categorizer scans: description and merchant name joined by
a space and lowercased. -/
def catText (description : String) (merchantName : Option String) : String :=
  lowerStr (description ++ " " ++ merchantName.getD "")

/-- The ordered keyword cascade of `categorizeTransaction`, one entry per
`if` block of the source, in source order.  Each block returns its category
as soon as any of its keywords occurs in the scanned text. -/
def keywordCascade : List (TransactionCategory × List String) :=
  [ (.food, ["restaurant", "food", "cafe", "coffee", "pizza", "burger",
             "grocery", "supermarket", "market"]),
    (.transportation, ["uber", "lyft", "gas", "fuel", "parking", "transit",
                       "metro", "bus"]),
    (.entertainment, ["netflix", "spotify", "hulu", "disney", "hbo", "movie",
                      "theater", "concert", "game"]),
    (.utilities, ["electric", "water", "gas utility", "internet", "phone",
                  "cable"]),
    (.rent, ["rent", "lease", "mortgage"]),
    (.healthcare, ["pharmacy", "doctor", "hospital", "medical", "health"]),
    (.shopping, ["amazon", "walmart", "target", "store", "shop"]),
    (.salary, ["salary", "payroll", "direct deposit", "payment received"]) ]

/-- `categorizeTransaction(description, merchantName?)`: first cascade entry
with a matching keyword wins; with no match the result is `other`. -/
def categorizeTransaction (description : String)
    (merchantName : Option String) : TransactionCategory :=
  let text := catText description merchantName
  match keywordCascade.find? (fun r => r.2.any (fun kw => strIncludes text kw)) with
  | some r => r.1
  | none => .other

/-! ## Bank schema catalog and format detection
(`BANK_PATTERNS` lines 873–922, `FileImportService.autoDetectBank`
lines 1015–1049, `detectBankPattern` lines 1054–1077) -/

/-- Column-mapping schema for one bank (`BANK_PATTERNS` entry shape). -/
structure BankPattern where
  name : String
  dateColumns : List String
  descriptionColumns : List String
  amountColumns : List String
  typeColumn : Option String
  accountColumns : List String
deriving DecidableEq, Repr

/-- `BANK_PATTERNS.bankOfAmerica`. -/
def bankOfAmericaPattern : BankPattern :=
  { name := "Bank of America"
    dateColumns := ["Posted Date", "Date"]
    descriptionColumns := ["Payee", "Description"]
    amountColumns := ["Amount"]
    typeColumn := none
    accountColumns := ["Account"] }

/-- `BANK_PATTERNS.chase`. -/
def chasePattern : BankPattern :=
  { name := "Chase"
    dateColumns := ["Posting Date", "Transaction Date"]
    descriptionColumns := ["Description"]
    amountColumns := ["Amount"]
    typeColumn := some "Type"
    accountColumns := ["Account"] }

/-- `BANK_PATTERNS.wellsFargo`. -/
def wellsFargoPattern : BankPattern :=
  { name := "Wells Fargo"
    dateColumns := ["Date"]
    descriptionColumns := ["Description", "Merchant"]
    amountColumns := ["Amount"]
    typeColumn := none
    accountColumns := ["Account Number"] }

/-- `BANK_PATTERNS.citi`. -/
def citiPattern : BankPattern :=
  { name := "Citi"
    dateColumns := ["Date"]
    descriptionColumns := ["Description"]
    amountColumns := ["Debit", "Credit"]
    typeColumn := none
    accountColumns := [] }

/-- `BANK_PATTERNS.capitalOne`. -/
def capitalOnePattern : BankPattern :=
  { name := "Capital One"
    dateColumns := ["Transaction Date"]
    descriptionColumns := ["Description"]
    amountColumns := ["Debit", "Credit"]
    typeColumn := none
    accountColumns := ["Account Number"] }

/-- `BANK_PATTERNS.amex`. -/
def amexPattern : BankPattern :=
  { name := "American Express"
    dateColumns := ["Date"]
    descriptionColumns := ["Description"]
    amountColumns := ["Amount"]
    typeColumn := none
    accountColumns := ["Card Member"] }

/-- The lowercased, comma-joined header row (`headers.join(',').toLowerCase()`). -/
def headerStrOf (headers : List String) : String := lowerStr (joinWith "," headers)

/-- Bank-of-America detection predicate. -/
def pBankOfAmerica (headers : List String) : Bool :=
  let h := headerStrOf headers
  strIncludes h "posted date" && strIncludes h "payee"

/-- Chase detection predicate. -/
def pChase (headers : List String) : Bool :=
  let h := headerStrOf headers
  strIncludes h "posting date" || (strIncludes h "type" && strIncludes h "description")

/-- Wells-Fargo detection predicate (also examines the column count). -/
def pWellsFargo (headers : List String) : Bool :=
  let h := headerStrOf headers
  strIncludes h "wells" ||
    (strIncludes h "date" && strIncludes h "amount" && decide (headers.length ≤ 5))

/-- Citi detection predicate. -/
def pCiti (headers : List String) : Bool :=
  let h := headerStrOf headers
  strIncludes h "debit" && strIncludes h "credit" && strIncludes h "status"

/-- Capital-One detection predicate. -/
def pCapitalOne (headers : List String) : Bool :=
  let h := headerStrOf headers
  strIncludes h "transaction date" && (strIncludes h "debit" || strIncludes h "credit")

/-- American-Express detection predicate. -/
def pAmex (headers : List String) : Bool :=
  let h := headerStrOf headers
  strIncludes h "card member" || strIncludes h "amex"

/-- `FileImportService.autoDetectBank`: the source's fixed chain of `if`
statements, in source order, returning `null` when nothing matches. -/
def autoDetectBank (headers : List String) : Option BankPattern :=
  if pBankOfAmerica headers then some bankOfAmericaPattern
  else if pChase headers then some chasePattern
  else if pWellsFargo headers then some wellsFargoPattern
  else if pCiti headers then some citiPattern
  else if pCapitalOne headers then some capitalOnePattern
  else if pAmex headers then some amexPattern
  else none

/-- The detection rules as an explicit ordered table (the shape §4.1 of the
specification describes): predicate plus resulting schema, in the precedence
order Bank-of-America, Chase, Wells-Fargo, Citi, Capital-One, Amex. -/
def detectRules : List ((List String → Bool) × BankPattern) :=
  [ (pBankOfAmerica, bankOfAmericaPattern),
    (pChase, chasePattern),
    (pWellsFargo, wellsFargoPattern),
    (pCiti, citiPattern),
    (pCapitalOne, capitalOnePattern),
    (pAmex, amexPattern) ]

/-- Remove all whitespace (`bankName.replace(/\s+/g, '')`). -/
def stripWs (s : String) : String := String.mk (s.data.filter (fun c => !isWs c))

/-- `FileImportService.detectBankPattern(headers, bankName)`: normalize the
hint and match known identifiers, falling back to auto-detection. -/
def detectBankPattern (headers : List String) (bankName : String) : Option BankPattern :=
  let normalizedName := lowerStr (stripWs bankName)
  if strIncludes normalizedName "bankofamerica" || strIncludes normalizedName "boa" then
    some bankOfAmericaPattern
  else if strIncludes normalizedName "chase" then some chasePattern
  else if strIncludes normalizedName "wellsfargo" || strIncludes normalizedName "wells" then
    some wellsFargoPattern
  else if strIncludes normalizedName "citi" then some citiPattern
  else if strIncludes normalizedName "capitalone" || strIncludes normalizedName "capital" then
    some capitalOnePattern
  else if strIncludes normalizedName "amex" || strIncludes normalizedName "americanexpress" then
    some amexPattern
  else autoDetectBank headers

/-- The canonical header column list of a schema: every candidate column the
schema names, in field order (dates, descriptions, amounts, type, account). -/
def canonicalHeaders (p : BankPattern) : List String :=
  p.dateColumns ++ p.descriptionColumns ++ p.amountColumns ++
    p.typeColumn.toList ++ p.accountColumns

/-! ## Row parser (`FileImportService.parseCSVLine`, lines 984–1010) -/

/-- Trimmed field pushed by the parser (`result.push(current.trim())`). -/
def fieldOf (cur : List Char) : String := String.mk (trimList cur)

/-- State of the `parseCSVLine` loop.  `outQ`/`inQ` are the two values of
the source's `inQuotes` flag; `quoteInQ` records that the previous
character was a quote read while inside quotes and the one-character
lookahead (`nextChar === '"'`) is still pending, which renders the
source's index skip (`i++`) as a state instead. -/
inductive CsvMode
  | outQ
  | inQ
  | quoteInQ
deriving DecidableEq, Repr

/-- The character loop of `parseCSVLine`: `cur` is the field being
accumulated, `acc` the fields already emitted.  Outside quotes a quote
enters quoted mode and a comma ends the field; inside quotes a quote is
held pending: followed by another quote the pair yields one literal quote
(still inside quotes), otherwise quoting ends and the character is handled
outside quotes.  The end of the line always pushes the trimmed field. -/
def csvAux : List Char → CsvMode → List Char → List String → List String
  | [], _, cur, acc => acc ++ [fieldOf cur]
  | c :: rest, CsvMode.outQ, cur, acc =>
    if c = '"' then csvAux rest CsvMode.inQ cur acc
    else if c = ',' then csvAux rest CsvMode.outQ [] (acc ++ [fieldOf cur])
    else csvAux rest CsvMode.outQ (cur ++ [c]) acc
  | c :: rest, CsvMode.inQ, cur, acc =>
    if c = '"' then csvAux rest CsvMode.quoteInQ cur acc
    else csvAux rest CsvMode.inQ (cur ++ [c]) acc
  | c :: rest, CsvMode.quoteInQ, cur, acc =>
    if c = '"' then csvAux rest CsvMode.inQ (cur ++ ['"']) acc
    else if c = ',' then csvAux rest CsvMode.outQ [] (acc ++ [fieldOf cur])
    else csvAux rest CsvMode.outQ (cur ++ [c]) acc

/-- `parseCSVLine(line)`. -/
def parseCSVLine (line : String) : List String :=
  csvAux line.data CsvMode.outQ [] []

/-! ## Amount normalization (`FileImportService.parseAmount`, lines 1247–1256) -/

/-- The cleaning pass of `parseAmount`: remove currency symbols, commas and
whitespace (`/[$€£¥,\s]/g`), then turn parentheses into minus signs
(`/[()]/g` → `-`).  The final JS `trim()` is a no-op because all whitespace
was already removed. -/
def cleanAmountChars (l : List Char) : List Char :=
  (l.filter (fun c =>
      !(c == '$' || c == '€' || c == '£' || c == '¥' || c == ',' || isWs c))).map
    (fun c => if c = '(' ∨ c = ')' then '-' else c)

/-- Numeric value of a digit run. -/
def digitsToNat (l : List Char) : Nat :=
  l.foldl (fun n c => n * 10 + (c.toNat - 48)) 0

/-- Model of JS `parseFloat` on whitespace-free input: optional sign, then
the longest decimal-literal prefix (integer digits, optional fraction,
optional exponent consumed only when followed by a digit); `none` models
`NaN` when no digit is found.  The `Infinity` literal, which no bank export
contains, is not modelled. -/
def parseFloatPre (l : List Char) : Option ℚ :=
  let sr : ℚ × List Char :=
    match l with
    | '-' :: r => (-1, r)
    | '+' :: r => (1, r)
    | _ => (1, l)
  let intDigits := sr.2.takeWhile Char.isDigit
  let rest1 := sr.2.dropWhile Char.isDigit
  let fr : List Char × List Char :=
    match rest1 with
    | '.' :: r => (r.takeWhile Char.isDigit, r.dropWhile Char.isDigit)
    | _ => ([], rest1)
  if intDigits.length = 0 ∧ fr.1.length = 0 then none
  else
    let mant : ℚ := (digitsToNat intDigits : ℚ) +
      (digitsToNat fr.1 : ℚ) / ((10 : ℚ) ^ fr.1.length)
    let expVal : Int :=
      match fr.2 with
      | 'e' :: r =>
        let er : Int × List Char :=
          match r with
          | '-' :: rr => (-1, rr)
          | '+' :: rr => (1, rr)
          | _ => (1, r)
        let eds := er.2.takeWhile Char.isDigit
        if eds.length = 0 then 0 else er.1 * (digitsToNat eds : Int)
      | 'E' :: r =>
        let er : Int × List Char :=
          match r with
          | '-' :: rr => (-1, rr)
          | '+' :: rr => (1, rr)
          | _ => (1, r)
        let eds := er.2.takeWhile Char.isDigit
        if eds.length = 0 then 0 else er.1 * (digitsToNat eds : Int)
      | _ => 0
    some (sr.1 * mant * (10 : ℚ) ^ expVal)

/-- `parseAmount(amountStr)`: clean, parse as decimal, `NaN` becomes `0`. -/
def parseAmount (amountStr : String) : ℚ :=
  match parseFloatPre (cleanAmountChars amountStr.data) with
  | some q => q
  | none => 0

/-! ## Field extraction and transaction assembly
(`FileImportService.parseTransaction` lines 1082–1126 and helpers) -/

/-- Lookup in the `header -> value` record built by `parseTransaction`
(`row[header] = values[i] || ''`): a duplicated header keeps the last
assignment; a missing header or missing value reads as the empty string
(matching JS `undefined`/`''` falsiness). -/
def rowGet (headers values : List String) (k : String) : String :=
  match headers.enum.reverse.find? (fun p => p.2 == k) with
  | some p => values.getD p.1 ""
  | none => ""

/-- `extractDate`: first candidate column whose non-empty value the date
parser `pd` (the host's `new Date` wrapper `parseDate`) accepts. -/
def extractDate (pd : String → Option SDate)
    (headers values dateCols : List String) : Option SDate :=
  dateCols.findSome? (fun col =>
    let v := rowGet headers values col
    if v = "" then none else pd v)

/-- `extractDescription`: first candidate column whose trimmed value is
non-empty, trimmed; otherwise the empty string. -/
def extractDescription (headers values descCols : List String) : String :=
  match descCols.findSome? (fun col =>
    let v := rowGet headers values col
    if v ≠ "" ∧ trimStr v ≠ "" then some (trimStr v) else none) with
  | some s => s
  | none => ""

/-- `extractAmount`: type-column branch, debit/credit branch, or single
signed column, in the source's precedence order. -/
def extractAmount (headers values amountCols : List String)
    (typeCol : Option String) : ℚ × TxType :=
  let tcVal := match typeCol with
    | some tc => rowGet headers values tc
    | none => ""
  if typeCol.isSome ∧ tcVal ≠ "" then
    let typeValue := lowerStr tcVal
    let isDebit := strIncludes typeValue "debit" || strIncludes typeValue "withdrawal" ||
      strIncludes typeValue "payment"
    let amount := parseAmount (rowGet headers values (amountCols.getD 0 ""))
    (amount, if isDebit then TxType.expense else TxType.income)
  else if 1 < amountCols.length then
    let debit := parseAmount (rowGet headers values (amountCols.getD 0 ""))
    let credit := parseAmount (rowGet headers values (amountCols.getD 1 ""))
    if 0 < debit then (debit, TxType.expense)
    else if 0 < credit then (credit, TxType.income)
    else (0, TxType.expense)
  else
    let amount := parseAmount (rowGet headers values (amountCols.getD 0 ""))
    (|amount|, if amount < 0 then TxType.expense else TxType.income)

/-- Leading transaction-type tokens stripped by `extractMerchantName`, in
the order of the source's regex alternation. -/
def merchantTypeTokens : List String :=
  ["DEBIT", "CREDIT", "ACH", "CHECK", "TRANSFER", "PAYMENT", "WITHDRAWAL", "DEPOSIT"]

/-- Case-insensitive prefix test (the regex is `/^(...)\s* /i`). -/
def isPrefCI : List Char → List Char → Bool
  | [], _ => true
  | _ :: _, [] => false
  | a :: as, b :: bs => a.toLower == b.toLower && isPrefCI as bs

/-- Strip one leading type token and the whitespace after it. -/
def stripLeadType (l : List Char) : List Char :=
  match merchantTypeTokens.findSome? (fun w =>
      if isPrefCI w.data l then some (l.drop w.length) else none) with
  | some rest => rest.dropWhile isWs
  | none => l

/-- Remove digit runs of length at least 4 (`/\d{4,}/g` → `''`); `run`
holds the current digit run in reverse. -/
def removeLongRunsAux (run : List Char) : List Char → List Char
  | [] => if 4 ≤ run.length then [] else run.reverse
  | c :: rest =>
    if c.isDigit then removeLongRunsAux (c :: run) rest
    else (if 4 ≤ run.length then [] else run.reverse) ++ c :: removeLongRunsAux [] rest

/-- Entry point for the digit-run removal. -/
def removeLongRuns (l : List Char) : List Char := removeLongRunsAux [] l

/-- Remove `#`-prefixed reference numbers (`/#\d+/g` → `''`), as a state
machine: state 0 scans normally, state 1 has seen a pending `#`, state 2 is
consuming the digits of a matched reference. -/
def removeRefsAux : Nat → List Char → List Char
  | 0, [] => []
  | 1, [] => ['#']
  | _, [] => []
  | 0, c :: rest => if c = '#' then removeRefsAux 1 rest else c :: removeRefsAux 0 rest
  | 1, c :: rest =>
    if c.isDigit then removeRefsAux 2 rest
    else if c = '#' then '#' :: removeRefsAux 1 rest
    else '#' :: c :: removeRefsAux 0 rest
  | _, c :: rest =>
    if c.isDigit then removeRefsAux 2 rest
    else if c = '#' then removeRefsAux 1 rest
    else c :: removeRefsAux 0 rest

/-- Entry point for the reference-number removal. -/
def removeRefs (l : List Char) : List Char := removeRefsAux 0 l

/-- JS `split(/\s+/)` on trimmed input: whitespace-separated words. -/
def splitWsAux (cur : List Char) : List Char → List String
  | [] => if cur.isEmpty then [] else [String.mk cur.reverse]
  | c :: rest =>
    if isWs c then
      if cur.isEmpty then splitWsAux [] rest
      else String.mk cur.reverse :: splitWsAux [] rest
    else splitWsAux (c :: cur) rest

/-- Word list of a character list. -/
def splitWsWords (l : List Char) : List String := splitWsAux [] l

/-- `extractMerchantName(description)`: strip a leading type token, digit
runs of length ≥ 4 and `#`-references, trim, and keep the first three
whitespace-delimited words. -/
def extractMerchantName (description : String) : String :=
  let cleaned := trimList (removeRefs (removeLongRuns (stripLeadType description.data)))
  joinWith " " ((splitWsWords cleaned).take 3)

/-- `parseTransaction(headers, values, pattern, lineNumber)`: `error`
models a thrown row-level exception, `ok none` the silent drop of a row
whose amount resolved to `0`, `ok (some t)` a parsed transaction. -/
def parseTransaction (pd : String → Option SDate) (nowMs : Int)
    (headers values : List String) (pattern : BankPattern) (lineNumber : Nat) :
    Except String (Option Transaction) :=
  match extractDate pd headers values pattern.dateColumns with
  | none => Except.error "Fecha no encontrada o inválida"
  | some date =>
    let description := extractDescription headers values pattern.descriptionColumns
    if description = "" then Except.error "Descripción no encontrada"
    else
      let a := extractAmount headers values pattern.amountColumns pattern.typeColumn
      if a.1 = 0 then Except.ok none
      else Except.ok (some
        { id := "imported-" ++ toString nowMs ++ "-" ++ toString lineNumber
          accountId := ""
          date := date
          description := description
          amount := |a.1|
          type := a.2
          category := TransactionCategory.other
          isRecurring := false
          merchantName := some (extractMerchantName description) })

deriving instance DecidableEq for Except

/-- Result of `importCSV` (`accountInfo` is never populated by the source's
`importCSV`, so it is omitted). -/
structure ImportResult where
  transactions : List Transaction
  errors : List String
deriving DecidableEq, Repr

/-- One iteration of the row loop of `importCSV`: rows with fewer than two
fields are skipped, `ok none` contributes nothing, a parsed transaction is
appended, and a thrown error is recorded tagged with the 1-based line
number. -/
def importRowStep (pd : String → Option SDate) (nowMs : Int)
    (headers : List String) (pattern : BankPattern)
    (st : List Transaction × List String) (p : Nat × String) :
    List Transaction × List String :=
  let values := parseCSVLine p.2
  if values.length < 2 then st
  else
    match parseTransaction pd nowMs headers values pattern p.1 with
    | Except.ok none => st
    | Except.ok (some t) => (st.1 ++ [t], st.2)
    | Except.error msg =>
      (st.1, st.2 ++ ["Línea " ++ toString (p.1 + 1) ++ ": " ++ msg])

/-- `importCSV(fileContent, bankName?)`: split into non-blank lines, parse
the header, resolve the schema (hint first, else auto-detection), then run
the row loop; whole-file failures return a single error. -/
def importCSV (pd : String → Option SDate) (nowMs : Int) (fileContent : String)
    (bankName : Option String) : ImportResult :=
  let lines := ((splitOnChar '\n' fileContent.data).map String.mk).filter
    (fun l => trimStr l ≠ "")
  if lines.length < 2 then
    { transactions := [], errors := ["Archivo vacío o sin datos"] }
  else
    let headers := parseCSVLine (lines.getD 0 "")
    let bankPattern := match bankName with
      | some b => detectBankPattern headers b
      | none => autoDetectBank headers
    match bankPattern with
    | none =>
      { transactions := []
        errors := ["Formato de banco no reconocido. Por favor selecciona el banco manualmente."] }
    | some pattern =>
      let st := (List.enumFrom 1 (lines.drop 1)).foldl
        (importRowStep pd nowMs headers pattern) ([], [])
      { transactions := st.1, errors := st.2 }

/-! ## Recurring-pattern detection
(`IntelligenceService.identifyRecurringTransactions`, lines 440–475) -/

/-- Grouping key: `t.merchantName || t.description` (JS falsiness: a missing
or empty merchant name falls back to the description). -/
def merchantKey (t : Transaction) : String :=
  let m := t.merchantName.getD ""
  if m = "" then t.description else m

/-- One `Map.set` with JS `Map` semantics: an existing key keeps its
position and its list is extended; a new key is appended at the end. -/
def upsertTx (l : List (String × List Transaction)) (k : String)
    (t : Transaction) : List (String × List Transaction) :=
  match l with
  | [] => [(k, [t])]
  | (k', g) :: rest =>
    if k' = k then (k', g ++ [t]) :: rest else (k', g) :: upsertTx rest k t

/-- The `merchantMap` of `identifyRecurringTransactions`: transactions
grouped by merchant key, in first-insertion iteration order. -/
def groupByMerchant (txs : List Transaction) : List (String × List Transaction) :=
  txs.foldl (fun acc t => upsertTx acc (merchantKey t) t) []

/-- Sum of transaction amounts (`reduce((sum, t) => sum + t.amount, 0)`). -/
def sumAmounts (txs : List Transaction) : ℚ :=
  txs.foldl (fun s t => s + t.amount) 0

/-- Mean of a group's amounts. -/
def meanAmount (txs : List Transaction) : ℚ :=
  sumAmounts txs / (txs.length : ℚ)

/-- Population variance of a group's amounts. -/
def varAmount (txs : List Transaction) : ℚ :=
  (txs.foldl (fun s t => s + (t.amount - meanAmount txs) ^ 2) 0) / (txs.length : ℚ)

/-- Output entry of the recurring detector. -/
structure RecurringPattern where
  merchantName : String
  amount : ℚ
  frequency : Nat
deriving DecidableEq, Repr

/-- `identifyRecurringTransactions(transactions)`: groups of at least two
occurrences whose amount variance is below one tenth of the mean amount. -/
def identifyRecurringTransactions (txs : List Transaction) : List RecurringPattern :=
  (groupByMerchant txs).filterMap (fun g =>
    if g.2.length < 2 then none
    else
      let avgAmount := meanAmount g.2
      let variance := varAmount g.2
      if variance < avgAmount * (1 / 10) then
        some { merchantName := g.1, amount := avgAmount, frequency := g.2.length }
      else none)

/-! ## Insight data model (`FinancialInsight` in `src/types`) -/

/-- Insight kind. -/
inductive InsightType
  | warning
  | suggestion
  | achievement
deriving DecidableEq, Repr

/-- Insight priority. -/
inductive Priority
  | low
  | medium
  | high
deriving DecidableEq, Repr

/-- `FinancialInsight`. -/
structure FinancialInsight where
  id : String
  type : InsightType
  title : String
  description : String
  category : Option TransactionCategory := none
  potentialSavings : Option ℚ := none
  actionable : Bool
  priority : Priority
  createdAt : SDate
deriving DecidableEq, Repr

/-- JS `Number.prototype.toFixed(2)` on a rational: round to the nearest
hundredth, ties towards the larger value (the ECMA-262 rule); faithful on
the non-negative and exactly-representable values the analytics produce. -/
def toFixed2 (q : ℚ) : String :=
  let n : Int := (q * 100 + 1 / 2).floor
  let absN := n.natAbs
  let digits := toString (absN / 100) ++ "." ++
    (if absN % 100 < 10 then "0" else "") ++ toString (absN % 100)
  if n < 0 then "-" ++ digits else digits

/-- JS `toFixed(0)` under the same conventions. -/
def toFixed0 (q : ℚ) : String := toString (q + 1 / 2).floor

/-- Spanish category names (`getCategoryName`). -/
def getCategoryName : TransactionCategory → String
  | .food => "comida"
  | .transportation => "transporte"
  | .entertainment => "entretenimiento"
  | .utilities => "servicios"
  | .rent => "renta"
  | .healthcare => "salud"
  | .shopping => "compras"
  | .education => "educación"
  | .salary => "salario"
  | .investment => "inversión"
  | .other => "otros"

/-! ## Insight detectors (`IntelligenceService`, lines 356–709)

Each detector receives the ambient instant explicitly: `now : SDate` models
the `new Date()` the source takes at entry, `nowMs : Int` the value of each
`Date.now()` interpolated into ids (all reads of the clock during one pass
are modelled as returning the same instant). -/

/-- Categories scanned by `detectUnnecessaryExpenses`, in source order. -/
def targetCategories : List TransactionCategory := [.entertainment, .shopping, .food]

/-- One `forEach` iteration of `detectUnnecessaryExpenses`: the insights
pushed for a single target category (empty when the category had no
expenses in the trailing window, matching the source's early `return`). -/
def unnecessaryInsightsFor (now : SDate) (nowMs : Int)
    (txs : List Transaction) (category : TransactionCategory) : List FinancialInsight :=
  let lastMonth := subMonths now 1
  let categoryExpenses := txs.filter (fun t =>
    t.type == TxType.expense && t.category == category && sdLe lastMonth t.date)
  if categoryExpenses.length = 0 then []
  else
      let total := sumAmounts categoryExpenses
      let ins1 :=
        if category == TransactionCategory.food then
          let small := categoryExpenses.filter (fun t => t.amount < 15)
          if 15 < small.length then
            let smallTotal := sumAmounts small
            [{ id := "insight-small-food-" ++ toString nowMs
               type := InsightType.suggestion
               title := "Gastos pequeños frecuentes en comida"
               description := "Has hecho " ++ toString small.length ++
                 " compras pequeñas de comida este mes ($" ++ toFixed2 smallTotal ++
                 "). Considera preparar comidas en casa o comprar café en termo."
               category := some TransactionCategory.food
               potentialSavings := some (smallTotal * (6 / 10))
               actionable := true
               priority := Priority.medium
               createdAt := now }]
          else []
        else []
      let ins2 :=
        if category == TransactionCategory.entertainment then
          (identifyRecurringTransactions categoryExpenses).map (fun p =>
            { id := "insight-subscription-" ++ toString nowMs ++ "-" ++ p.merchantName
              type := InsightType.suggestion
              title := "Posible suscripción no utilizada"
              description := "Tienes un cargo recurrente de $" ++ toFixed2 p.amount ++
                " en " ++ p.merchantName ++ ". ¿Realmente lo estás usando?"
              category := some TransactionCategory.entertainment
              potentialSavings := some (p.amount * 12)
              actionable := true
              priority := Priority.high
              createdAt := now })
        else []
      let ins3 :=
        if category == TransactionCategory.shopping && decide (500 < total) then
          [{ id := "insight-excessive-shopping-" ++ toString nowMs
             type := InsightType.warning
             title := "Gasto alto en compras"
             description := "Has gastado $" ++ toFixed2 total ++
               " en compras este mes. Considera establecer un presupuesto mensual."
             category := some TransactionCategory.shopping
             potentialSavings := some (total * (3 / 10))
             actionable := true
             priority := Priority.high
             createdAt := now }]
        else []
      ins1 ++ ins2 ++ ins3

/-- `detectUnnecessaryExpenses(transactions)`: the `forEach` over the three
target categories accumulates each category's pushes in order. -/
def detectUnnecessaryExpenses (now : SDate) (nowMs : Int)
    (txs : List Transaction) : List FinancialInsight :=
  (targetCategories.map (unnecessaryInsightsFor now nowMs txs)).flatten

/-- `detectRecurringExpenses(transactions)`. -/
def detectRecurringExpenses (now : SDate) (nowMs : Int)
    (txs : List Transaction) : List FinancialInsight :=
  let recurring := identifyRecurringTransactions
    (txs.filter (fun t => t.type == TxType.expense))
  let totalRecurring := recurring.foldl (fun s r => s + r.amount) 0
  if 0 < totalRecurring then
    [{ id := "insight-recurring-" ++ toString nowMs
       type := InsightType.suggestion
       title := "Gastos recurrentes identificados"
       description := "Tienes $" ++ toFixed2 totalRecurring ++
         " en gastos recurrentes mensuales. Revisa si todos son necesarios."
       actionable := true
       priority := Priority.medium
       createdAt := now }]
  else []

/-- Categories scanned by `detectUnusualSpending`, in source order. -/
def unusualCategories : List TransactionCategory :=
  [.food, .transportation, .entertainment, .utilities, .shopping, .healthcare]

/-- One `forEach` iteration of `detectUnusualSpending`: the warning pushed
for a single category, when triggered. -/
def unusualInsightFor (now : SDate) (nowMs : Int)
    (txs : List Transaction) (category : TransactionCategory) : List FinancialInsight :=
  let thisMonth := startOfMonth now
  let lastMonth := startOfMonth (subMonths now 1)
  let twoMonthsAgo := startOfMonth (subMonths now 2)
  let thisMonthTotal := sumAmounts (txs.filter (fun t =>
    t.type == TxType.expense && t.category == category && sdLe thisMonth t.date))
  let lastMonthTotal := sumAmounts (txs.filter (fun t =>
    t.type == TxType.expense && t.category == category &&
      sdLe lastMonth t.date && sdLt t.date thisMonth))
  let twoMonthsTotal := sumAmounts (txs.filter (fun t =>
    t.type == TxType.expense && t.category == category &&
      sdLe twoMonthsAgo t.date && sdLt t.date lastMonth))
  let average := (lastMonthTotal + twoMonthsTotal) / 2
  if decide (average * (15 / 10) < thisMonthTotal) && decide (0 < average) then
    let increase := thisMonthTotal - average
    [{ id := "insight-unusual-" ++ catString category ++ "-" ++ toString nowMs
       type := InsightType.warning
       title := "Gasto elevado en " ++ getCategoryName category
       description := "Has gastado $" ++ toFixed2 thisMonthTotal ++ " en " ++
         getCategoryName category ++ " este mes, $" ++ toFixed2 increase ++
         " más que tu promedio."
       category := some category
       actionable := true
       priority := Priority.high
       createdAt := now }]
  else []

/-- `detectUnusualSpending(transactions)`: the `forEach` over the six
compared categories accumulates each category's pushes in order. -/
def detectUnusualSpending (now : SDate) (nowMs : Int)
    (txs : List Transaction) : List FinancialInsight :=
  (unusualCategories.map (unusualInsightFor now nowMs txs)).flatten

/-- `suggestBudgetOptimizations(transactions)`. -/
def suggestBudgetOptimizations (now : SDate) (nowMs : Int)
    (txs : List Transaction) : List FinancialInsight :=
  let thisMonth := startOfMonth now
  let totalExpenses := sumAmounts (txs.filter (fun t =>
    t.type == TxType.expense && sdLe thisMonth t.date))
  let totalIncome := sumAmounts (txs.filter (fun t =>
    t.type == TxType.income && sdLe thisMonth t.date))
  let ins1 :=
    if decide (0 < totalIncome) && decide ((9 : ℚ) / 10 < totalExpenses / totalIncome) then
      [{ id := "insight-high-spending-" ++ toString nowMs
         type := InsightType.warning
         title := "Nivel de gastos muy alto"
         description := "Estás gastando " ++ toFixed0 (totalExpenses / totalIncome * 100) ++
           "% de tus ingresos. Intenta ahorrar al menos 10-20%."
         actionable := true
         priority := Priority.high
         createdAt := now }]
    else []
  let ins2 :=
    if decide (0 < totalIncome) then
      let needs := totalIncome * (5 / 10)
      let wants := totalIncome * (3 / 10)
      let savings := totalIncome * (2 / 10)
      [{ id := "insight-budget-rule-" ++ toString nowMs
         type := InsightType.suggestion
         title := "Aplica la regla 50/30/20"
         description := "Para tus ingresos de $" ++ toFixed2 totalIncome ++
           ", intenta: $" ++ toFixed2 needs ++ " en necesidades, $" ++ toFixed2 wants ++
           " en deseos, y $" ++ toFixed2 savings ++ " en ahorros."
         actionable := true
         priority := Priority.medium
         createdAt := now }]
    else []
  ins1 ++ ins2

/-- One addition to the month-keyed record of `groupByMonth` (JS object
keys iterate in insertion order). -/
def upsertAdd (l : List ((Int × Nat) × ℚ)) (k : Int × Nat) (v : ℚ) :
    List ((Int × Nat) × ℚ) :=
  match l with
  | [] => [(k, v)]
  | (k', x) :: rest =>
    if k' = k then (k', x + v) :: rest else (k', x) :: upsertAdd rest k v

/-- `groupByMonth(transactions)`: amounts summed per `yyyy-MM` key. -/
def groupByMonth (txs : List Transaction) : List ((Int × Nat) × ℚ) :=
  txs.foldl (fun acc t => upsertAdd acc (formatYM t.date) t.amount) []

/-- `analyzeIncomeOpportunities(transactions)`. -/
def analyzeIncomeOpportunities (now : SDate) (nowMs : Int)
    (txs : List Transaction) : List FinancialInsight :=
  let lastThreeMonths := subMonths now 3
  let incomeTransactions := txs.filter (fun t =>
    t.type == TxType.income && sdLe lastThreeMonths t.date)
  if incomeTransactions.length = 0 then []
  else
    let incomeValues := (groupByMonth incomeTransactions).map Prod.snd
    let ins1 :=
      if 2 ≤ incomeValues.length then
        let avgIncome := incomeValues.foldl (fun s v => s + v) 0 / (incomeValues.length : ℚ)
        let variance := (incomeValues.foldl (fun s v => s + (v - avgIncome) ^ 2) 0) /
          (incomeValues.length : ℚ)
        if decide (avgIncome * (3 / 10) < variance) then
          [{ id := "insight-income-variability-" ++ toString nowMs
             type := InsightType.suggestion
             title := "Ingresos variables detectados"
             description := "Tus ingresos varían significativamente. Considera buscar fuentes de ingreso más estables o crear un fondo de emergencia."
             actionable := true
             priority := Priority.medium
             createdAt := now }]
        else []
      else []
    let ins2 :=
      if incomeTransactions.length < 5 then
        [{ id := "insight-additional-income-" ++ toString nowMs
           type := InsightType.suggestion
           title := "Considera ingresos adicionales"
           description := "Podrías mejorar tu situación financiera con un trabajo freelance, venta de artículos no usados, o inversiones."
           actionable := true
           priority := Priority.low
           createdAt := now }]
      else []
    ins1 ++ ins2

/-- `detectIncomePatterns(transactions)`. -/
def detectIncomePatterns (now : SDate) (nowMs : Int)
    (txs : List Transaction) : List FinancialInsight :=
  let lastThreeMonths := subMonths now 3
  let incomeTransactions := txs.filter (fun t =>
    t.type == TxType.income && sdLe lastThreeMonths t.date)
  let sources := identifyRecurringTransactions incomeTransactions
  if 0 < sources.length then
    let totalRecurring := sources.foldl (fun s r => s + r.amount) 0
    [{ id := "insight-recurring-income-" ++ toString nowMs
       type := InsightType.achievement
       title := "Ingresos recurrentes estables"
       description := "Tienes $" ++ toFixed2 totalRecurring ++
         " en ingresos recurrentes mensuales. ¡Buen trabajo!"
       actionable := false
       priority := Priority.low
       createdAt := now }]
  else []

/-! ## Insight ordering (`generateInsights`, lines 333–351) -/

/-- The numeric priority ranks (`priorityOrder = high: 3, medium: 2, low: 1`). -/
def priorityOrder : Priority → Nat
  | .high => 3
  | .medium => 2
  | .low => 1

/-- Stable insertion of a new earliest-emitted element: it passes elements
of strictly higher rank and stops before the first element of equal or
lower rank, so equal-rank elements keep emission order. -/
def insertByPriority (x : FinancialInsight) :
    List FinancialInsight → List FinancialInsight
  | [] => [x]
  | y :: rest =>
    if priorityOrder x.priority < priorityOrder y.priority then
      y :: insertByPriority x rest
    else x :: y :: rest

/-- The stable, priority-descending sort performed by
`insights.sort((a, b) => priorityOrder[b.priority] - priorityOrder[a.priority])`.
`Array.prototype.sort` is stable, and a stable sort by a fixed key has a
unique result, so the stable insertion sort below is an exact model. -/
def sortInsights (l : List FinancialInsight) : List FinancialInsight :=
  l.foldr insertByPriority []

/-- The concatenated detector outputs, in the emission order of
`generateInsights` before sorting. -/
def rawInsights (now : SDate) (nowMs : Int)
    (txs : List Transaction) : List FinancialInsight :=
  detectUnnecessaryExpenses now nowMs txs ++
  detectRecurringExpenses now nowMs txs ++
  detectUnusualSpending now nowMs txs ++
  suggestBudgetOptimizations now nowMs txs ++
  analyzeIncomeOpportunities now nowMs txs ++
  detectIncomePatterns now nowMs txs

/-- `generateInsights(transactions)`: run all detectors, then sort by
priority descending. -/
def generateInsights (now : SDate) (nowMs : Int)
    (txs : List Transaction) : List FinancialInsight :=
  sortInsights (rawInsights now nowMs txs)

/-! ## Daily budget calculator (store `calculateDailyBudget`,
`part_003` lines 329–373) -/

/-- Income-pattern record (`IncomePattern`). -/
inductive Frequency
  | weekly
  | biweekly
  | monthly
  | irregular
deriving DecidableEq, Repr

/-- `IncomePattern`. -/
structure IncomePattern where
  source : String
  averageMonthly : ℚ
  frequency : Frequency
  nextExpectedDate : Option SDate := none
  consistency : ℚ
deriving DecidableEq, Repr

/-- `Budget` (only `monthlyLimit` is read by the calculator, into an unused
total). -/
structure Budget where
  id : String
  category : TransactionCategory
  monthlyLimit : ℚ
  dailyLimit : ℚ
  currentSpent : ℚ
  alerts : Bool
deriving DecidableEq, Repr

/-- IEEE-observable result of a JS division: a finite double is an exact
rational here; division by zero yields Infinity, -Infinity or NaN. -/
inductive JsNum
  | finite (q : ℚ)
  | inf
  | negInf
  | nan
deriving DecidableEq, Repr

/-- Whether a `JsNum` is a finite number (JS `Number.isFinite`). -/
def JsNum.isFinite : JsNum → Bool
  | .finite _ => true
  | _ => false

/-- JS division `a / b` on finite operands. -/
def jsDiv (a b : ℚ) : JsNum :=
  if b = 0 then (if a = 0 then JsNum.nan else if 0 < a then JsNum.inf else JsNum.negInf)
  else JsNum.finite (a / b)

/-- Multiplication of a JS number by a positive finite constant (the
`* 100` of the percentage computation). -/
def jsMulPos (x : JsNum) (c : ℚ) : JsNum :=
  match x with
  | .finite q => .finite (q * c)
  | .inf => .inf
  | .negInf => .negInf
  | .nan => .nan

/-- `DailyBudget`; `percentageUsed` is kept as a `JsNum` because the source
divides by `dailyAvailable` without a guard. -/
structure DailyBudget where
  date : SDate
  availableToSpend : ℚ
  spent : ℚ
  remaining : ℚ
  percentageUsed : JsNum
deriving DecidableEq, Repr

/-- `calculateDailyBudget()` of the store, as a function of the state it
reads (`transactions`, `budgets`, `incomePatterns`) and of `today`.  The
source's `setHours` mutations only adjust time-of-day, which the
day-granularity date model renders as the bounds `today ≤ t.date ≤ today`;
`totalBudget` is computed and dropped exactly as in the source. -/
def calculateDailyBudget (today : SDate) (transactions : List Transaction)
    (budgets : List Budget) (incomePatterns : List IncomePattern) : DailyBudget :=
  let som := startOfMonth today
  let daysInM := daysInMonth today.year today.month
  let daysRemaining : Int := (daysInM : Int) - (today.day : Int) + 1
  let monthlyIncome := incomePatterns.foldl (fun s p => s + p.averageMonthly) 0
  let monthExpenses := sumAmounts (transactions.filter (fun t =>
    t.type == TxType.expense && sdLe som t.date && sdLe t.date today))
  let _totalBudget := budgets.foldl (fun s b => s + b.monthlyLimit) 0
  let remaining := monthlyIncome - monthExpenses
  let dailyAvailable := remaining / (daysRemaining : ℚ)
  let todaySpent := sumAmounts (transactions.filter (fun t =>
    t.type == TxType.expense && sdLe today t.date && sdLe t.date today))
  { date := today
    availableToSpend := dailyAvailable
    spent := todaySpent
    remaining := dailyAvailable - todaySpent
    percentageUsed := jsMulPos (jsDiv todaySpent dailyAvailable) 100 }

/-! ## Concrete inputs used by individual theorems -/

/-- Entertainment expense at a fixed merchant (recurring example). -/
def c7mk (i : String) (amt : ℚ) : Transaction :=
  { id := i, accountId := "", date := ⟨2024, 6, 1⟩, description := i, amount := amt,
    type := TxType.expense, category := TransactionCategory.entertainment,
    isRecurring := false, merchantName := some "Netflix" }

/-- Entertainment expense at a second merchant (non-recurring example). -/
def c7mkB (i : String) (amt : ℚ) : Transaction :=
  { id := i, accountId := "", date := ⟨2024, 6, 1⟩, description := i, amount := amt,
    type := TxType.expense, category := TransactionCategory.entertainment,
    isRecurring := false, merchantName := some "Acme" }

/-- Three identical 9.99 charges at one merchant. -/
def c7recs : List Transaction :=
  [c7mk "a" (999 / 100), c7mk "b" (999 / 100), c7mk "c" (999 / 100)]

/-- Three widely varying charges at one merchant. -/
def c7vars : List Transaction :=
  [c7mkB "d" (999 / 100), c7mkB "e" 50, c7mkB "f" 5]

/-- Minimal insight with a chosen id and priority (sorting example). -/
def c10mk (i : String) (p : Priority) : FinancialInsight :=
  { id := i, type := InsightType.suggestion, title := "t", description := "d",
    actionable := true, priority := p, createdAt := ⟨2024, 1, 1⟩ }

/-- Emitted insights with priorities low, high, medium, high. -/
def c10emitted : List FinancialInsight :=
  [c10mk "a" Priority.low, c10mk "b" Priority.high,
   c10mk "c" Priority.medium, c10mk "d" Priority.high]

/-- Fixed analysis instant for the determinism theorems. -/
def c5now : SDate := ⟨2024, 6, 15⟩

/-- A single current-month income transaction (makes the detectors emit). -/
def c5tx : Transaction :=
  { id := "inc", accountId := "", date := ⟨2024, 6, 1⟩, description := "ACME PAYROLL",
    amount := 1000, type := TxType.income, category := TransactionCategory.salary,
    isRecurring := false, merchantName := some "ACME" }

/-- The first insight generated for `c5tx` at instant `c5now`. -/
def c5insight : FinancialInsight :=
  (generateInsights c5now 0 [c5tx]).head (by decide)

/-- Analysis day for the daily-budget theorem. -/
def c4today : SDate := ⟨2024, 6, 15⟩

/-- A 50-unit expense dated on the analysis day. -/
def c4tx : Transaction :=
  { id := "e", accountId := "", date := c4today, description := "X", amount := 50,
    type := TxType.expense, category := TransactionCategory.food,
    isRecurring := false, merchantName := none }

/-- An income pattern contributing exactly the month's expenses (50). -/
def c4pattern : IncomePattern :=
  { source := "Job", averageMonthly := 50, frequency := Frequency.monthly,
    consistency := 85 }

/-- A concrete stand-in for the host date parser, accepting one date. -/
def c6pd : String → Option SDate :=
  fun s => if s = "01/15/2024" then some ⟨2024, 1, 15⟩ else none

/-- Chase-style header row for the import example. -/
def c6headers : List String := ["Posting Date", "Description", "Type", "Amount"]

/-- A CSV row whose amount string does not parse. -/
def c6row : String := "01/15/2024,COFFEE,DEBIT,abc"

/-! ## Helper lemmas: the stable priority sort -/

theorem insertByPriority_skip (x : FinancialInsight) (L1 L2 : List FinancialInsight)
    (h : ∀ y ∈ L1, priorityOrder x.priority < priorityOrder y.priority) :
    insertByPriority x (L1 ++ L2) = L1 ++ insertByPriority x L2 := by
  induction L1 with
  | nil => rfl
  | cons y t ih =>
    have hy := h y (by simp)
    simp only [List.cons_append, insertByPriority, if_pos hy, List.append_eq]
    rw [ih (fun z hz => h z (by simp [hz]))]

theorem insertByPriority_stop (x : FinancialInsight) (L2 : List FinancialInsight)
    (h : ∀ y ∈ L2, ¬ priorityOrder x.priority < priorityOrder y.priority) :
    insertByPriority x L2 = x :: L2 := by
  cases L2 with
  | nil => rfl
  | cons y t =>
    simp only [insertByPriority]
    rw [if_neg (h y (by simp))]

theorem sortInsights_filters (l : List FinancialInsight) :
    sortInsights l =
      l.filter (fun i => i.priority == Priority.high) ++
      l.filter (fun i => i.priority == Priority.medium) ++
      l.filter (fun i => i.priority == Priority.low) := by
  induction l with
  | nil => rfl
  | cons x t ih =>
    have hsort : sortInsights (x :: t) = insertByPriority x (sortInsights t) := rfl
    rw [hsort, ih, List.append_assoc]
    cases hp : x.priority with
    | high =>
      rw [insertByPriority_stop x _
          (by
            intro y hy
            cases hyp : y.priority <;> simp [hp, hyp, priorityOrder])]
      simp [List.filter_cons, hp, List.append_assoc]
    | medium =>
      rw [insertByPriority_skip x (t.filter (fun i => i.priority == Priority.high))
          (t.filter (fun i => i.priority == Priority.medium) ++
            t.filter (fun i => i.priority == Priority.low))
          (by
            intro y hy
            have := (List.mem_filter.1 hy).2
            have hyp : y.priority = Priority.high := by simpa using this
            simp [hp, hyp, priorityOrder]),
        insertByPriority_stop x _
          (by
            intro y hy
            rcases List.mem_append.1 hy with hm | hl
            · have := (List.mem_filter.1 hm).2
              have hyp : y.priority = Priority.medium := by simpa using this
              simp [hp, hyp, priorityOrder]
            · have := (List.mem_filter.1 hl).2
              have hyp : y.priority = Priority.low := by simpa using this
              simp [hp, hyp, priorityOrder])]
      simp [List.filter_cons, hp, List.append_assoc]
    | low =>
      rw [insertByPriority_skip x (t.filter (fun i => i.priority == Priority.high))
          (t.filter (fun i => i.priority == Priority.medium) ++
            t.filter (fun i => i.priority == Priority.low))
          (by
            intro y hy
            have := (List.mem_filter.1 hy).2
            have hyp : y.priority = Priority.high := by simpa using this
            simp [hp, hyp, priorityOrder]),
        insertByPriority_skip x (t.filter (fun i => i.priority == Priority.medium))
          (t.filter (fun i => i.priority == Priority.low))
          (by
            intro y hy
            have := (List.mem_filter.1 hy).2
            have hyp : y.priority = Priority.medium := by simpa using this
            simp [hp, hyp, priorityOrder]),
        insertByPriority_stop x _
          (by
            intro y hy
            have := (List.mem_filter.1 hy).2
            have hyp : y.priority = Priority.low := by simpa using this
            simp [hp, hyp, priorityOrder])]
      simp [List.filter_cons, hp, List.append_assoc]

theorem mem_sortInsights (i : FinancialInsight) (l : List FinancialInsight) :
    i ∈ sortInsights l ↔ i ∈ l := by
  rw [sortInsights_filters]
  simp only [List.mem_append, List.mem_filter, beq_iff_eq]
  constructor
  · rintro ((⟨h, _⟩ | ⟨h, _⟩) | ⟨h, _⟩) <;> exact h
  · intro h
    cases hi : i.priority <;> simp [h, hi]

/-! ## Helper lemmas: every emitted insight carries the invocation instant -/

theorem createdAt_unnecessaryFor (now : SDate) (nowMs : Int)
    (txs : List Transaction) (c : TransactionCategory) :
    ∀ i ∈ unnecessaryInsightsFor now nowMs txs c, i.createdAt = now := by
  intro i hi
  unfold unnecessaryInsightsFor at hi
  dsimp only at hi
  split at hi
  · exact absurd hi (List.not_mem_nil i)
  · rcases List.mem_append.1 hi with h12 | h3
    · rcases List.mem_append.1 h12 with h1 | h2
      · split at h1
        · split at h1
          · simp at h1
            subst h1
            rfl
          · exact absurd h1 (List.not_mem_nil i)
        · exact absurd h1 (List.not_mem_nil i)
      · split at h2
        · rcases List.mem_map.1 h2 with ⟨p, _, hpe⟩
          subst hpe
          rfl
        · exact absurd h2 (List.not_mem_nil i)
    · split at h3
      · simp at h3
        subst h3
        rfl
      · exact absurd h3 (List.not_mem_nil i)

theorem createdAt_detectUnnecessary (now : SDate) (nowMs : Int)
    (txs : List Transaction) :
    ∀ i ∈ detectUnnecessaryExpenses now nowMs txs, i.createdAt = now := by
  intro i hi
  unfold detectUnnecessaryExpenses at hi
  rcases List.mem_flatten.1 hi with ⟨l, hl, hil⟩
  rcases List.mem_map.1 hl with ⟨c, _, hce⟩
  subst hce
  exact createdAt_unnecessaryFor now nowMs txs c i hil

theorem createdAt_detectRecurring (now : SDate) (nowMs : Int)
    (txs : List Transaction) :
    ∀ i ∈ detectRecurringExpenses now nowMs txs, i.createdAt = now := by
  intro i hi
  unfold detectRecurringExpenses at hi
  dsimp only at hi
  split at hi
  · simp at hi
    subst hi
    rfl
  · exact absurd hi (List.not_mem_nil i)

theorem createdAt_unusualFor (now : SDate) (nowMs : Int)
    (txs : List Transaction) (c : TransactionCategory) :
    ∀ i ∈ unusualInsightFor now nowMs txs c, i.createdAt = now := by
  intro i hi
  unfold unusualInsightFor at hi
  dsimp only at hi
  split at hi
  · simp at hi
    subst hi
    rfl
  · exact absurd hi (List.not_mem_nil i)

theorem createdAt_detectUnusual (now : SDate) (nowMs : Int)
    (txs : List Transaction) :
    ∀ i ∈ detectUnusualSpending now nowMs txs, i.createdAt = now := by
  intro i hi
  unfold detectUnusualSpending at hi
  rcases List.mem_flatten.1 hi with ⟨l, hl, hil⟩
  rcases List.mem_map.1 hl with ⟨c, _, hce⟩
  subst hce
  exact createdAt_unusualFor now nowMs txs c i hil

theorem createdAt_suggestBudget (now : SDate) (nowMs : Int)
    (txs : List Transaction) :
    ∀ i ∈ suggestBudgetOptimizations now nowMs txs, i.createdAt = now := by
  intro i hi
  unfold suggestBudgetOptimizations at hi
  dsimp only at hi
  rcases List.mem_append.1 hi with h1 | h2
  · split at h1
    · simp at h1
      subst h1
      rfl
    · exact absurd h1 (List.not_mem_nil i)
  · split at h2
    · simp at h2
      subst h2
      rfl
    · exact absurd h2 (List.not_mem_nil i)

theorem createdAt_incomeOpportunities (now : SDate) (nowMs : Int)
    (txs : List Transaction) :
    ∀ i ∈ analyzeIncomeOpportunities now nowMs txs, i.createdAt = now := by
  intro i hi
  unfold analyzeIncomeOpportunities at hi
  dsimp only at hi
  split at hi
  · exact absurd hi (List.not_mem_nil i)
  · rcases List.mem_append.1 hi with h1 | h2
    · split at h1
      · split at h1
        · simp at h1
          subst h1
          rfl
        · exact absurd h1 (List.not_mem_nil i)
      · exact absurd h1 (List.not_mem_nil i)
    · split at h2
      · simp at h2
        subst h2
        rfl
      · exact absurd h2 (List.not_mem_nil i)

theorem createdAt_incomePatterns (now : SDate) (nowMs : Int)
    (txs : List Transaction) :
    ∀ i ∈ detectIncomePatterns now nowMs txs, i.createdAt = now := by
  intro i hi
  unfold detectIncomePatterns at hi
  dsimp only at hi
  split at hi
  · simp at hi
    subst hi
    rfl
  · exact absurd hi (List.not_mem_nil i)

theorem createdAt_rawInsights (now : SDate) (nowMs : Int)
    (txs : List Transaction) :
    ∀ i ∈ rawInsights now nowMs txs, i.createdAt = now := by
  intro i hi
  unfold rawInsights at hi
  simp only [List.mem_append] at hi
  rcases hi with ((((h | h) | h) | h) | h) | h
  · exact createdAt_detectUnnecessary now nowMs txs i h
  · exact createdAt_detectRecurring now nowMs txs i h
  · exact createdAt_detectUnusual now nowMs txs i h
  · exact createdAt_suggestBudget now nowMs txs i h
  · exact createdAt_incomeOpportunities now nowMs txs i h
  · exact createdAt_incomePatterns now nowMs txs i h

/-- C10: for every transaction list (and clock reading), `generateInsights`
returns the emitted insights stably sorted by priority descending: exactly
the high-priority insights in emission order, then the medium ones, then
the low ones; and on emitted priorities [low, high, medium, high] the
output is [high, high, medium, low] with the two high insights in their
original relative order. -/
theorem C10_generateInsights_stable_priority_sort :
    (∀ (now : SDate) (nowMs : Int) (txs : List Transaction),
      generateInsights now nowMs txs =
        (rawInsights now nowMs txs).filter (fun i => i.priority == Priority.high) ++
        (rawInsights now nowMs txs).filter (fun i => i.priority == Priority.medium) ++
        (rawInsights now nowMs txs).filter (fun i => i.priority == Priority.low)) ∧
    sortInsights c10emitted =
      [c10mk "b" Priority.high, c10mk "d" Priority.high,
       c10mk "c" Priority.medium, c10mk "a" Priority.low] := by
  constructor
  · intro now nowMs txs
    exact sortInsights_filters _
  · rfl

/-- C5 (amended): the categorizer and pattern functions are pure functions
of their explicit arguments, and each insight detector is a pure function
of the transaction list together with the invocation instant; every insight
emitted by `generateInsights` carries the invocation instant in its
`createdAt` (and its id embeds the `Date.now()` reading), so repeated
invocation at one instant reproduces the output exactly, while invocations
at different instants differ whenever any insight is emitted. -/
theorem C5_insights_deterministic_given_instant :
    ∀ (now : SDate) (nowMs : Int) (txs : List Transaction),
      ∀ i ∈ generateInsights now nowMs txs, i.createdAt = now := by
  intro now nowMs txs i hi
  exact createdAt_rawInsights now nowMs txs i ((mem_sortInsights i _).1 hi)

/-- C5 witness: the amended theorem applied to a concrete insight of a
concrete run. -/
theorem C5_insights_deterministic_witness : c5insight.createdAt = c5now := by
  refine C5_insights_deterministic_given_instant c5now 0 [c5tx] c5insight ?_
  unfold c5insight
  exact List.head_mem _

/-- C5 counterexample: the claim as stated — identical output, ids and
timestamps included, for any two invocations on the same transaction list —
fails on the code: the same list analysed at two different `Date.now()`
readings yields insight lists that differ (in their ids). -/
theorem C5_identical_output_counterexample :
    generateInsights c5now 0 [c5tx] ≠ generateInsights c5now 1 [c5tx] := by decide

/-! ## Helper lemmas: merchant grouping has unique keys -/

theorem upsertTx_keys (l : List (String × List Transaction)) (k : String)
    (t : Transaction) :
    (upsertTx l k t).map Prod.fst =
      if k ∈ l.map Prod.fst then l.map Prod.fst else l.map Prod.fst ++ [k] := by
  induction l with
  | nil => simp [upsertTx]
  | cons p rest ih =>
    obtain ⟨k', g⟩ := p
    by_cases hk : k' = k
    · subst hk
      simp [upsertTx]
    · have hk' : ¬ k = k' := fun h => hk h.symm
      simp only [upsertTx, if_neg hk, List.map_cons, ih, List.mem_cons]
      by_cases hm : k ∈ rest.map Prod.fst <;> simp [hm, hk']

theorem upsertTx_nodup (l : List (String × List Transaction)) (k : String)
    (t : Transaction) (h : (l.map Prod.fst).Nodup) :
    ((upsertTx l k t).map Prod.fst).Nodup := by
  rw [upsertTx_keys]
  split
  · exact h
  · next hk => simp [List.nodup_append, h, hk]

theorem groupByMerchant_nodup (txs : List Transaction) :
    ((groupByMerchant txs).map Prod.fst).Nodup := by
  have key : ∀ (ts : List Transaction) (acc : List (String × List Transaction)),
      (acc.map Prod.fst).Nodup →
      ((ts.foldl (fun acc t => upsertTx acc (merchantKey t) t) acc).map Prod.fst).Nodup := by
    intro ts
    induction ts with
    | nil => intro acc h; exact h
    | cons t rest ih =>
      intro acc h
      exact ih _ (upsertTx_nodup acc (merchantKey t) t h)
  exact key txs [] (by simp)

theorem assoc_unique (l : List (String × List Transaction))
    (h : (l.map Prod.fst).Nodup) {m : String} {g1 g2 : List Transaction}
    (h1 : (m, g1) ∈ l) (h2 : (m, g2) ∈ l) : g1 = g2 := by
  induction l with
  | nil => cases h1
  | cons p rest ih =>
    rcases List.mem_cons.1 h1 with e1 | h1'
    · rcases List.mem_cons.1 h2 with e2 | h2'
      · rw [← e1] at e2
        exact congrArg Prod.snd e2.symm
      · exfalso
        have hkey : p.1 = m := by rw [← e1]
        have : m ∈ rest.map Prod.fst := List.mem_map.2 ⟨(m, g2), h2', rfl⟩
        rw [List.map_cons, List.nodup_cons] at h
        exact h.1 (hkey ▸ this)
    · rcases List.mem_cons.1 h2 with e2 | h2'
      · exfalso
        have hkey : p.1 = m := by rw [← e2]
        have : m ∈ rest.map Prod.fst := List.mem_map.2 ⟨(m, g1), h1', rfl⟩
        rw [List.map_cons, List.nodup_cons] at h
        exact h.1 (hkey ▸ this)
      · rw [List.map_cons, List.nodup_cons] at h
        exact ih h.2 h1' h2'

/-- C7: recurring detection groups transactions by merchant name (falling
back to the description), keeps only groups of at least two occurrences,
and classifies a group as recurring exactly when the population variance of
its amounts is strictly below one tenth of the mean amount; amounts
[9.99, 9.99, 9.99] at one merchant are recurring, [9.99, 50, 5] are not. -/
theorem C7_recurring_variance_threshold :
    identifyRecurringTransactions c7recs =
      [{ merchantName := "Netflix", amount := 999 / 100, frequency := 3 }] ∧
    identifyRecurringTransactions c7vars = [] ∧
    ∀ (txs : List Transaction) (m : String) (g : List Transaction),
      (m, g) ∈ groupByMerchant txs →
      ((∃ r ∈ identifyRecurringTransactions txs, r.merchantName = m) ↔
        (2 ≤ g.length ∧ varAmount g < meanAmount g * (1 / 10))) := by
  refine ⟨by decide, by decide, ?_⟩
  intro txs m g hm
  constructor
  · rintro ⟨r, hr, hrm⟩
    unfold identifyRecurringTransactions at hr
    rcases List.mem_filterMap.1 hr with ⟨⟨m', g'⟩, hmem, hstep⟩
    by_cases hlen : g'.length < 2
    · simp [hlen] at hstep
    · by_cases hvar : varAmount g' < meanAmount g' * (1 / 10)
      · rw [if_neg hlen] at hstep
        dsimp only at hstep
        rw [if_pos hvar] at hstep
        have hstep' := Option.some.inj hstep
        have hmm : m' = m := by rw [← hrm, ← hstep']
        subst hmm
        have hg : g' = g := assoc_unique _ (groupByMerchant_nodup txs) hmem hm
        subst hg
        exact ⟨by omega, hvar⟩
      · rw [if_neg hlen] at hstep
        dsimp only at hstep
        rw [if_neg hvar] at hstep
        exact absurd hstep (by simp)
  · rintro ⟨hlen, hvar⟩
    refine ⟨{ merchantName := m, amount := meanAmount g, frequency := g.length },
      ?_, rfl⟩
    unfold identifyRecurringTransactions
    apply List.mem_filterMap.2
    refine ⟨(m, g), hm, ?_⟩
    have hlen' : ¬ g.length < 2 := by omega
    dsimp only
    rw [if_neg hlen', if_pos hvar]

/-- C7 witness: the general characterization applied to the concrete
three-charge merchant group. -/
theorem C7_recurring_variance_threshold_witness :
    ∃ r ∈ identifyRecurringTransactions c7recs, r.merchantName = "Netflix" :=
  (C7_recurring_variance_threshold.2.2 c7recs "Netflix" c7recs (by decide)).2
    (by decide)

/-- C1 counterexample: the claim's first example fails on the code — the
scanned text "starbucks store #12345 starbucks" contains no food keyword
but contains "store", so the categorizer does not return `food`. -/
theorem C1_starbucks_counterexample :
    categorizeTransaction "STARBUCKS STORE #12345" (some "Starbucks") ≠
      TransactionCategory.food := by decide

/-- C1 (amended): the categorizer is a total function (hence deterministic
and never raising); whenever no keyword of the ordered cascade occurs in
the scanned text it returns `other`; and on the claim's inputs it returns
`shopping` (via the "store" keyword) for the Starbucks example,
`entertainment` for "NETFLIX.COM", and `other` for "RANDOM XYZ CORP". -/
theorem C1_categorizer_cascade :
    (∀ (d : String) (m : Option String),
      (∀ r ∈ keywordCascade, ∀ kw ∈ r.2, strIncludes (catText d m) kw = false) →
      categorizeTransaction d m = TransactionCategory.other) ∧
    categorizeTransaction "STARBUCKS STORE #12345" (some "Starbucks") =
      TransactionCategory.shopping ∧
    categorizeTransaction "NETFLIX.COM" none = TransactionCategory.entertainment ∧
    categorizeTransaction "RANDOM XYZ CORP" none = TransactionCategory.other := by
  refine ⟨?_, by decide, by decide, by decide⟩
  intro d m h
  unfold categorizeTransaction
  dsimp only
  have hfind : keywordCascade.find?
      (fun r => r.2.any (fun kw => strIncludes (catText d m) kw)) = none := by
    rw [List.find?_eq_none]
    intro r hr hany
    rcases List.any_eq_true.1 hany with ⟨kw, hkw, hinc⟩
    rw [h r hr kw hkw] at hinc
    cases hinc
  rw [hfind]

/-- C1 witness: the no-match branch of the amended theorem at a concrete
input whose text matches no cascade keyword. -/
theorem C1_categorizer_cascade_witness :
    categorizeTransaction "RANDOM XYZ CORP" none = TransactionCategory.other :=
  C1_categorizer_cascade.1 "RANDOM XYZ CORP" none (by decide)

/-- C2 counterexample: auto-detection applied to Citi's own canonical
header list (Date, Description, Debit, Credit) does not return the Citi
schema — the Citi predicate also demands a "status" column, so detection
returns `none`. -/
theorem C2_citi_self_recognition_counterexample :
    autoDetectBank (canonicalHeaders citiPattern) ≠ some citiPattern := by decide

/-- C2 (amended): self-recognition holds for Bank of America, Chase, Wells
Fargo and Capital One; Citi's canonical headers match no predicate (its
rule also requires "status"), so detection fails, and American Express's
canonical headers (Date, Description, Amount, Card Member) are claimed by
the earlier Wells-Fargo rule (date + amount + at most five columns). -/
theorem C2_self_recognition_partial :
    autoDetectBank (canonicalHeaders bankOfAmericaPattern) = some bankOfAmericaPattern ∧
    autoDetectBank (canonicalHeaders chasePattern) = some chasePattern ∧
    autoDetectBank (canonicalHeaders wellsFargoPattern) = some wellsFargoPattern ∧
    autoDetectBank (canonicalHeaders capitalOnePattern) = some capitalOnePattern ∧
    autoDetectBank (canonicalHeaders citiPattern) = none ∧
    autoDetectBank (canonicalHeaders amexPattern) = some wellsFargoPattern := by
  exact ⟨by decide, by decide, by decide, by decide, by decide, by decide⟩

/-- C3: auto-detection evaluates the six predicates in the fixed order
Bank-of-America, Chase, Wells-Fargo, Citi, Capital-One, American-Express —
it equals the first match of the ordered rule table — and when none of the
six predicates holds it returns `none`. -/
theorem C3_detection_order_first_match :
    (∀ headers : List String,
      autoDetectBank headers =
        (detectRules.find? (fun r => r.1 headers)).map Prod.snd) ∧
    ∀ headers : List String,
      pBankOfAmerica headers = false → pChase headers = false →
      pWellsFargo headers = false → pCiti headers = false →
      pCapitalOne headers = false → pAmex headers = false →
      autoDetectBank headers = none := by
  constructor
  · intro hs
    unfold autoDetectBank detectRules
    cases h1 : pBankOfAmerica hs <;> cases h2 : pChase hs <;>
      cases h3 : pWellsFargo hs <;> cases h4 : pCiti hs <;>
        cases h5 : pCapitalOne hs <;> cases h6 : pAmex hs <;>
          simp [List.find?, h1, h2, h3, h4, h5, h6]
  · intro hs h1 h2 h3 h4 h5 h6
    unfold autoDetectBank
    simp [h1, h2, h3, h4, h5, h6]

/-- C3 witness: the none-branch applied to a header row matching no
predicate. -/
theorem C3_detection_order_first_match_witness :
    autoDetectBank ["Foo", "Bar"] = none :=
  C3_detection_order_first_match.2 ["Foo", "Bar"]
    (by decide) (by decide) (by decide) (by decide) (by decide) (by decide)

/-- C4: the division producing `percentageUsed` is not guarded — with month
expenses equal to monthly income (both 50) and 50 spent today,
`availableToSpend` is 0 and the stored `percentageUsed` is Infinity, not a
finite value. -/
theorem C4_percentageUsed_unguarded :
    (calculateDailyBudget c4today [c4tx] [] [c4pattern]).availableToSpend = 0 ∧
    (calculateDailyBudget c4today [c4tx] [] [c4pattern]).percentageUsed = JsNum.inf ∧
    ((calculateDailyBudget c4today [c4tx] [] [c4pattern]).percentageUsed).isFinite
      = false := by
  exact ⟨by decide, by decide, by decide⟩

/-- C6: a row whose amount string fails to parse resolves to amount `0`;
`parseTransaction` then returns `ok none` (no thrown error) provided the
row's date and description resolved, and the row loop of `importCSV` leaves
both the transaction list and the error list unchanged for such a row,
continuing with the following rows. -/
theorem C6_zero_amount_row_dropped_silently :
    (∀ (pd : String → Option SDate) (nowMs : Int) (headers values : List String)
        (pattern : BankPattern) (i : Nat),
      (∃ d, extractDate pd headers values pattern.dateColumns = some d) →
      extractDescription headers values pattern.descriptionColumns ≠ "" →
      (extractAmount headers values pattern.amountColumns pattern.typeColumn).1 = 0 →
      parseTransaction pd nowMs headers values pattern i = Except.ok none) ∧
    (∀ (pd : String → Option SDate) (nowMs : Int) (headers : List String)
        (pattern : BankPattern) (st : List Transaction × List String)
        (p : Nat × String),
      2 ≤ (parseCSVLine p.2).length →
      parseTransaction pd nowMs headers (parseCSVLine p.2) pattern p.1 =
        Except.ok none →
      importRowStep pd nowMs headers pattern st p = st) := by
  constructor
  · rintro pd nowMs headers values pattern i ⟨d, hd⟩ hdesc hamt
    unfold parseTransaction
    rw [hd]
    dsimp only
    rw [if_neg hdesc, if_pos hamt]
  · intro pd nowMs headers pattern st p hlen hok
    unfold importRowStep
    dsimp only
    have hnl : ¬ (parseCSVLine p.2).length < 2 := by omega
    rw [if_neg hnl, hok]

/-- C6 witness: a Chase-style row whose amount field is "abc" is dropped
with no transaction and no error. -/
theorem C6_zero_amount_row_dropped_witness :
    parseTransaction c6pd 0 c6headers (parseCSVLine c6row) chasePattern 1 =
      Except.ok none ∧
    importRowStep c6pd 0 c6headers chasePattern ([], []) (1, c6row) = ([], []) := by
  constructor
  · exact C6_zero_amount_row_dropped_silently.1 c6pd 0 c6headers
      (parseCSVLine c6row) chasePattern 1
      ⟨⟨2024, 1, 15⟩, by decide⟩ (by decide) (by decide)
  · exact C6_zero_amount_row_dropped_silently.2 c6pd 0 c6headers chasePattern
      ([], []) (1, c6row) (by decide) (by decide)

/-! ## Helper lemma: the row parser consumes quote-free text inside quotes -/

theorem csvAux_consume :
    ∀ (a : List Char), '"' ∉ a →
      ∀ (rest cur : List Char) (acc : List String),
        csvAux (a ++ rest) CsvMode.inQ cur acc =
          csvAux rest CsvMode.inQ (cur ++ a) acc := by
  intro a
  induction a with
  | nil =>
    intro _ rest cur acc
    simp
  | cons c t ih =>
    intro h rest cur acc
    have hc : ¬ c = '"' := fun e => h (by simp [e])
    have ht : '"' ∉ t := fun m => h (List.mem_cons_of_mem _ m)
    simp only [List.cons_append, csvAux, List.append_eq]
    rw [if_neg hc, ih ht]
    simp [List.append_assoc]

/-- C8: the row parser is quote-aware — for every pair of quote-free
character sequences, a quoted field containing the comma delimiter parses
as that single field, and a doubled quote inside a quoted field parses as
one literal quote character in the field's value. -/
theorem C8_parseCSVLine_quote_aware :
    (∀ a b : List Char, '"' ∉ a → '"' ∉ b →
      parseCSVLine (String.mk ('"' :: (a ++ ',' :: b) ++ ['"'])) =
        [fieldOf (a ++ ',' :: b)]) ∧
    (∀ a b : List Char, '"' ∉ a → '"' ∉ b →
      parseCSVLine (String.mk ('"' :: (a ++ ('"' :: '"' :: (b ++ ['"']))))) =
        [fieldOf (a ++ '"' :: b)]) := by
  constructor
  · intro a b ha hb
    have hab : '"' ∉ a ++ ',' :: b := by
      intro hm
      rcases List.mem_append.1 hm with hm | hm
      · exact ha hm
      · rcases List.mem_cons.1 hm with e | hm
        · exact absurd e (by decide)
        · exact hb hm
    show csvAux ('"' :: ((a ++ ',' :: b) ++ ['"'])) CsvMode.outQ [] [] =
      [fieldOf (a ++ ',' :: b)]
    calc csvAux ('"' :: ((a ++ ',' :: b) ++ ['"'])) CsvMode.outQ [] []
        = csvAux ((a ++ ',' :: b) ++ ['"']) CsvMode.inQ [] [] := rfl
      _ = csvAux ['"'] CsvMode.inQ ([] ++ (a ++ ',' :: b)) [] :=
          csvAux_consume _ hab ['"'] [] []
      _ = [] ++ [fieldOf ([] ++ (a ++ ',' :: b))] := rfl
      _ = [fieldOf (a ++ ',' :: b)] := by simp
  · intro a b ha hb
    show csvAux ('"' :: (a ++ ('"' :: '"' :: (b ++ ['"'])))) CsvMode.outQ [] [] =
      [fieldOf (a ++ '"' :: b)]
    calc csvAux ('"' :: (a ++ ('"' :: '"' :: (b ++ ['"'])))) CsvMode.outQ [] []
        = csvAux (a ++ ('"' :: '"' :: (b ++ ['"']))) CsvMode.inQ [] [] := rfl
      _ = csvAux ('"' :: '"' :: (b ++ ['"'])) CsvMode.inQ ([] ++ a) [] :=
          csvAux_consume a ha _ [] []
      _ = csvAux (b ++ ['"']) CsvMode.inQ (([] ++ a) ++ ['"']) [] := rfl
      _ = csvAux ['"'] CsvMode.inQ ((([] ++ a) ++ ['"']) ++ b) [] :=
          csvAux_consume b hb _ _ []
      _ = [] ++ [fieldOf ((([] ++ a) ++ ['"']) ++ b)] := rfl
      _ = [fieldOf (a ++ '"' :: b)] := by simp [List.append_assoc]

/-- C8 witness: both round-trips at concrete quote-free fields. -/
theorem C8_parseCSVLine_quote_aware_witness :
    parseCSVLine (String.mk ('"' :: (['a', 'b'] ++ ',' :: ['c', 'd']) ++ ['"'])) =
      [fieldOf (['a', 'b'] ++ ',' :: ['c', 'd'])] ∧
    parseCSVLine (String.mk ('"' :: (['a', 'b'] ++ ('"' :: '"' :: (['c', 'd'] ++ ['"']))))) =
      [fieldOf (['a', 'b'] ++ '"' :: ['c', 'd'])] :=
  ⟨C8_parseCSVLine_quote_aware.1 ['a', 'b'] ['c', 'd'] (by decide) (by decide),
   C8_parseCSVLine_quote_aware.2 ['a', 'b'] ['c', 'd'] (by decide) (by decide)⟩

/-- C9: amount normalization strips currency symbols, thousands separators
and whitespace, turns parentheses into minus signs, and parses the result
as a decimal: "$1,234.56" yields 1234.56, "(45.00)" yields -45, "€10"
yields 10, and every string whose cleaned form has no parseable decimal
prefix yields 0. -/
theorem C9_parseAmount_normalization :
    parseAmount "$1,234.56" = 1234.56 ∧
    parseAmount "(45.00)" = -45 ∧
    parseAmount "€10" = 10 ∧
    ∀ s : String,
      parseFloatPre (cleanAmountChars s.data) = none → parseAmount s = 0 := by
  refine ⟨by decide, by decide, by decide, ?_⟩
  intro s h
  unfold parseAmount
  rw [h]

/-- C9 witness: the parse-failure branch at a concrete unparseable string. -/
theorem C9_parseAmount_normalization_witness :
    parseFloatPre (cleanAmountChars ("abc").data) = none ∧ parseAmount "abc" = 0 :=
  ⟨by decide, C9_parseAmount_normalization.2.2.2 "abc" (by decide)⟩
